import Mathlib

/-!
Verification of the pyxir backend-registry and dispatch core.

The development shallowly embeds:
* `include/pyxir/runtime/runtime_module_factory.hpp` — the
  `RuntimeModuleFactory` class (inline members `set_impl`, `get_impl`,
  `set_compute_impl`) together with the Manager-owned registry map that the
  static members `RegisterImpl`, `Exists` and `GetRuntimeModule` operate on
  (their out-of-line bodies are modelled from the spec, as noted on each
  definition);
* `src/pyxir/frontend/onnx.cpp` — the two `import_onnx_model` overloads,
  instrumented with an event trace recording registry lookups and opaque
  function invocations;
* `src/pyxir/runtime/backends/vai_rt/vai_compute_func.hpp` — the
  `VaiComputeFunc` class, its `supported_ops_` set and `is_op_supported`,
  with the declared `operator()` modelled from the spec.

Shared mutable C++ state (registry maps keyed by strings) is passed
explicitly; `std::shared_ptr` identity is modelled with natural-number
handles; exceptions are modelled with `Except`.
-/

namespace Pyxir

/-- Association-list lookup keyed by strings: the model of
`std::unordered_map<std::string, V>::find`. -/
def lookupS {α : Type} : List (String × α) → String → Option α
  | [], _ => none
  | x :: rest, key => if x.1 = key then some x.2 else lookupS rest key

/-- In-place update of the value stored under key `r` (all other entries
untouched): the model of mutating a map entry through a reference. -/
def updateS {α : Type} (l : List (String × α)) (r : String) (g : α → α) :
    List (String × α) :=
  l.map (fun p => if p.1 = r then (p.1, g p.2) else p)

@[simp] theorem lookupS_nil {α : Type} (key : String) :
    lookupS ([] : List (String × α)) key = none := rfl

@[simp] theorem lookupS_cons {α : Type} (x : String × α)
    (rest : List (String × α)) (key : String) :
    lookupS (x :: rest) key =
      if x.1 = key then some x.2 else lookupS rest key := rfl

@[simp] theorem updateS_nil {α : Type} (r : String) (g : α → α) :
    updateS ([] : List (String × α)) r g = [] := rfl

@[simp] theorem updateS_cons {α : Type} (p : String × α)
    (rest : List (String × α)) (r : String) (g : α → α) :
    updateS (p :: rest) r g =
      (if p.1 = r then (p.1, g p.2) else p) :: updateS rest r g := rfl

theorem lookupS_updateS {α : Type} (l : List (String × α)) (r : String)
    (g : α → α) :
    lookupS (updateS l r g) r = (lookupS l r).map g := by
  induction l with
  | nil => simp
  | cons p rest ih =>
    by_cases h : p.1 = r
    · simp [h]
    · simp [h, ih]

theorem lookupS_updateS_ne {α : Type} (l : List (String × α)) (r k : String)
    (g : α → α) (hne : r ≠ k) :
    lookupS (updateS l r g) k = lookupS l k := by
  induction l with
  | nil => simp
  | cons p rest ih =>
    by_cases h : p.1 = r
    · have hk : ¬ p.1 = k := by rw [h]; exact hne
      simp [h, hk, hne, ih]
    · by_cases hk : p.1 = k
      · simp [h, hk, Ne.symm hne]
      · simp [h, hk, ih]

/-- Model of `RunOptions` (from `run_options.hpp`, not excerpted): an
immutable configuration bundle; the spec names an online-quantization
toggle. A `RunOptionsHolder` that is `nullptr` is `Option.none`. -/
structure RunOptions where
  online_quantization : Bool
deriving DecidableEq, Repr

/-- The argument tuple a `RuntimeModuleFactoryImpl` receives from
`GetRuntimeModule`: (graph, target, input tensor names, output tensor
names, run options). The graph `std::shared_ptr` is modelled by its
handle. -/
structure BuildArgs where
  xg : Nat
  target : String
  in_tensor_names : List String
  out_tensor_names : List String
  run_options : Option RunOptions
deriving DecidableEq, Repr

/-- Modelled from the spec: a runtime module as observed at the dispatch
boundary (`runtime_module.hpp` and concrete impls are not excerpted). The
module records which impl constructed it and the exact argument tuple that
impl received, which is all the claims about dispatch observe. -/
structure RtMod where
  impl_id : Nat
  args : BuildArgs
deriving DecidableEq, Repr

/-- Modelled from the spec: a `RuntimeModuleFactoryImpl`
(`runtime_module_factory_impl.hpp` is not excerpted) is a capability that
constructs a runtime module from the argument tuple; distinct installed
implementations are told apart by `id`. -/
structure RuntimeModuleFactoryImpl where
  id : Nat
deriving DecidableEq, Repr

/-- The impl constructs a module from the arguments handed to it. -/
def RuntimeModuleFactoryImpl.build (impl : RuntimeModuleFactoryImpl)
    (a : BuildArgs) : RtMod :=
  { impl_id := impl.id, args := a }

/-- `RuntimeModuleFactory` from `runtime_module_factory.hpp`: carries the
runtime name it was created for and owns at most one impl (the
`RuntimeModuleFactoryImplHolder`, initially null). `fid` models the
object's identity (its address), assigned when the Manager creates it. -/
structure RuntimeModuleFactory where
  fid : Nat
  runtime_ : String
  impl_ : Option RuntimeModuleFactoryImpl
deriving DecidableEq, Repr

/-- `RuntimeModuleFactory::set_impl` (inline in the header): moves the new
impl into `impl_`, destroying the previous occupant, and returns `*this`. -/
def RuntimeModuleFactory.set_impl (f : RuntimeModuleFactory)
    (impl : RuntimeModuleFactoryImpl) : RuntimeModuleFactory :=
  { f with impl_ := some impl }

/-- `RuntimeModuleFactory::get_impl` (inline in the header). -/
def RuntimeModuleFactory.get_impl (f : RuntimeModuleFactory) :
    Option RuntimeModuleFactoryImpl :=
  f.impl_

/-- Modelled from the spec: the `RuntimeModuleFactory::Manager`-owned
process-wide map from runtime name to factory (the Manager's definition is
not excerpted; only `class Manager;` is declared). `next` is the allocator
for factory identities. -/
structure Manager where
  map : List (String × RuntimeModuleFactory)
  next : Nat
deriving DecidableEq, Repr

/-- Modelled from the spec: the Manager's `GetFactory` get-or-create, which
also backs the static `RuntimeModuleFactory::RegisterImpl`: if no entry
exists for `runtime`, a new factory with no impl is created and inserted;
the (reference to the) factory for `runtime` is returned. -/
def Manager.GetFactory (m : Manager) (runtime : String) :
    Manager × RuntimeModuleFactory :=
  match lookupS m.map runtime with
  | some f => (m, f)
  | none =>
    let f : RuntimeModuleFactory :=
      { fid := m.next, runtime_ := runtime, impl_ := none }
    ({ map := (runtime, f) :: m.map, next := m.next + 1 }, f)

/-- Modelled from the spec: the static `RuntimeModuleFactory::RegisterImpl`
delegates to the Manager's get-or-create `GetFactory` and returns the
(reference to the) factory for the runtime name. -/
def Manager.RegisterImpl (m : Manager) (runtime : String) :
    Manager × RuntimeModuleFactory :=
  m.GetFactory runtime

/-- `RuntimeModuleFactory::RegisterImpl(runtime).set_impl(impl)` as one
state transition: get-or-create the factory for `runtime`, then install
`impl` in place through the returned reference. -/
def Manager.registerAndSetImpl (m : Manager) (runtime : String)
    (impl : RuntimeModuleFactoryImpl) : Manager :=
  let m1 := (m.GetFactory runtime).1
  { m1 with map := updateS m1.map runtime (fun f => f.set_impl impl) }

/-- Modelled from the spec: the static `RuntimeModuleFactory::Exists`,
true iff a factory entry exists for the runtime name. -/
def Manager.rmfExists (m : Manager) (runtime : String) : Bool :=
  (lookupS m.map runtime).isSome

/-- Errors surfaced at the dispatch boundary (`std::runtime_error` and the
spec's taxonomy). -/
inductive PxError where
  | UnknownRuntime (runtime : String)
  | NotFoundKey (key : String)
  | ArityMismatch
deriving DecidableEq, Repr

/-- Modelled from the spec: the static
`RuntimeModuleFactory::GetRuntimeModule` (its out-of-line body is not
excerpted). It looks up the factory for `runtime`, failing with
`UnknownRuntime` when the entry (or its installed impl) is absent, and
otherwise delegates to the installed impl with exactly the given argument
tuple. The state component of the result is the registry after the call. -/
def Manager.GetRuntimeModule (m : Manager) (xg : Nat) (target : String)
    (in_tensor_names out_tensor_names : List String) (runtime : String)
    (run_options : Option RunOptions) :
    Manager × Except PxError RtMod :=
  match lookupS m.map runtime with
  | none => (m, .error (.UnknownRuntime runtime))
  | some f =>
    match f.impl_ with
    | none => (m, .error (.UnknownRuntime runtime))
    | some impl =>
      (m, .ok (impl.build
        { xg := xg, target := target, in_tensor_names := in_tensor_names,
          out_tensor_names := out_tensor_names, run_options := run_options }))

/-- The call with `run_options` left at its default: the C++ parameter
defaults to `nullptr`, i.e. absent run options. -/
def Manager.GetRuntimeModuleNoOpts (m : Manager) (xg : Nat) (target : String)
    (in_tensor_names out_tensor_names : List String) (runtime : String) :
    Manager × Except PxError RtMod :=
  m.GetRuntimeModule xg target in_tensor_names out_tensor_names runtime none

/-- Modelled from the spec: a `ComputeFuncFactoryImpl`
(`compute_func_factory.hpp` is not excerpted), the per-runtime capability
producing compute functions; distinct implementations are told apart by
`id`. -/
structure ComputeFuncFactoryImpl where
  id : Nat
deriving DecidableEq, Repr

/-- Modelled from the spec: the per-runtime `ComputeFuncFactory` slot
holding at most one installed `ComputeFuncFactoryImpl`. -/
structure ComputeFuncFactory where
  runtime_ : String
  impl_ : Option ComputeFuncFactoryImpl
deriving DecidableEq, Repr

/-- Modelled from the spec: the process-wide map behind
`ComputeFuncFactory::RegisterImpl`, keyed by runtime name. -/
structure CFRegistry where
  map : List (String × ComputeFuncFactory)
deriving DecidableEq, Repr

/-- Modelled from the spec:
`ComputeFuncFactory::RegisterImpl(runtime).set_impl(impl)` as one state
transition — get-or-create the per-runtime slot, then install `impl` in it
(superseding any previous impl for that runtime). -/
def CFRegistry.registerAndSetImpl (cf : CFRegistry) (runtime : String)
    (impl : ComputeFuncFactoryImpl) : CFRegistry :=
  let m1 : CFRegistry :=
    match lookupS cf.map runtime with
    | some _ => cf
    | none => { map := (runtime, { runtime_ := runtime, impl_ := none }) :: cf.map }
  { map := updateS m1.map runtime (fun f => { f with impl_ := some impl }) }

/-- `RuntimeModuleFactory::set_compute_impl` (inline in the header): calls
`ComputeFuncFactory::RegisterImpl(runtime_).set_impl(compute_impl)` and
returns `*this`. The compute-func registry state is threaded explicitly. -/
def RuntimeModuleFactory.set_compute_impl (f : RuntimeModuleFactory)
    (cf : CFRegistry) (compute_impl : ComputeFuncFactoryImpl) :
    RuntimeModuleFactory × CFRegistry :=
  (f, cf.registerAndSetImpl f.runtime_ compute_impl)

/-- `XGraph` as observed at the import boundary (`xgraph.hpp` is not
excerpted): a name — set by the constructor `XGraph("empty_onnx_model")` —
plus opaque content the importer populates. -/
structure XGraph where
  name : String
  nodes : List String
deriving DecidableEq, Repr

/-- An `OpaqueFunc` registered for the ONNX import keys: invoked with a
graph handle and a source string, it populates the graph in place —
modelled as a transformation of the graph's contents. -/
structure OpaqueFunc where
  run : XGraph → String → XGraph

/-- Modelled from the spec: the process-wide `OpaqueFuncRegistry` map from
key to callable (`opaque_func_registry.hpp` is not excerpted). -/
def OpaqueFuncRegistry := List (String × OpaqueFunc)

/-- Modelled from the spec: `OpaqueFuncRegistry::Exists`, a pure query. -/
def OpaqueFuncRegistry.funcExists (reg : OpaqueFuncRegistry) (key : String) :
    Bool :=
  (lookupS reg key).isSome

/-- Modelled from the spec: `OpaqueFuncRegistry::Get`, a lookup with no
side effects on the registry; `none` models the `NotFound` failure. -/
def OpaqueFuncRegistry.get (reg : OpaqueFuncRegistry) (key : String) :
    Option OpaqueFunc :=
  lookupS reg key

/-- Observable events of an import call: a `Get` on the registry, and an
invocation of an opaque function with its argument pair — the graph handle
(with the graph's contents at the moment of the call) and the source
string. -/
inductive OnnxEvent where
  | getCall (key : String)
  | invoke (key : String) (handle : Nat) (graph_at_call : XGraph)
      (source : String)
deriving DecidableEq, Repr

/-- `pyxir::onnx::import_onnx_model(const std::string &file_path)` from
`onnx.cpp`: checks `Exists("pyxir.onnx.from_onnx")` and throws if absent;
otherwise constructs a fresh `XGraph("empty_onnx_model")` (handle 0 in the
model, freshly allocated by `make_shared`), gets the opaque function,
invokes it with `(xg, file_path)` and returns `xg`. The second component
is the event trace. -/
def onnxImportModelFromFile (reg : OpaqueFuncRegistry) (file_path : String) :
    Except String (Nat × XGraph) × List OnnxEvent :=
  if ¬ reg.funcExists "pyxir.onnx.from_onnx" then
    (.error ("Cannot import ONNX model from file because" ++
             " `pyxir.onnx.from_onnx` opaque function is" ++
             " not registered"), [])
  else
    let xg : XGraph := { name := "empty_onnx_model", nodes := [] }
    let h : Nat := 0
    match reg.get "pyxir.onnx.from_onnx" with
    | none => (.error "NotFound", [.getCall "pyxir.onnx.from_onnx"])
    | some from_onnx =>
      (.ok (h, from_onnx.run xg file_path),
       [.getCall "pyxir.onnx.from_onnx",
        .invoke "pyxir.onnx.from_onnx" h xg file_path])

/-- `pyxir::onnx::import_onnx_model(std::istringstream &sstream)` from
`onnx.cpp`: same shape with key `"pyxir.onnx.from_onnx_bytes"`; the
argument `bytes` models `sstream.str()`, the full byte content of the
stream, which is what the opaque function is invoked with. -/
def onnxImportModelFromBytes (reg : OpaqueFuncRegistry) (bytes : String) :
    Except String (Nat × XGraph) × List OnnxEvent :=
  if ¬ reg.funcExists "pyxir.onnx.from_onnx_bytes" then
    (.error ("Cannot import ONNX model from file because" ++
             " `pyxir.onnx.from_onnx_bytes` opaque function is" ++
             " not registered"), [])
  else
    let xg : XGraph := { name := "empty_onnx_model", nodes := [] }
    let h : Nat := 0
    match reg.get "pyxir.onnx.from_onnx_bytes" with
    | none => (.error "NotFound", [.getCall "pyxir.onnx.from_onnx_bytes"])
    | some from_onnx =>
      (.ok (h, from_onnx.run xg bytes),
       [.getCall "pyxir.onnx.from_onnx_bytes",
        .invoke "pyxir.onnx.from_onnx_bytes" h xg bytes])

/-- A tensor buffer (`XBuffer` from `xbuffer.hpp`, opaque to the claims
beyond count and content). -/
structure XBuffer where
  data : List Int
deriving DecidableEq, Repr

/-- `VaiComputeFunc` from `vai_compute_func.hpp`: the members the claims
observe — the graph, target and tensor-name lists stored at construction,
the DPU runner (modelled as the opaque function it computes), and the
fixed `supported_ops_` set given by the in-class initializer
`{"Input", "Output", "DPUV1", "TupleGetItem"}` — modelled as a constant
since no code assigns it after initialization. -/
structure VaiComputeFunc where
  xg_ : XGraph
  target_ : String
  in_tensor_names_ : List String
  out_tensor_names_ : List String
  dpu_run : List XBuffer → List XBuffer

/-- The in-class initializer of `supported_ops_`. -/
def VaiComputeFunc.supported_ops_ : List String :=
  ["Input", "Output", "DPUV1", "TupleGetItem"]

/-- `VaiComputeFunc::is_op_supported` (inline in the header): membership
test in `supported_ops_`. -/
def VaiComputeFunc.is_op_supported (_f : VaiComputeFunc) (op_type : String) :
    Bool :=
  VaiComputeFunc.supported_ops_.contains op_type

/-- Modelled from the spec: `VaiComputeFunc::operator()` (declared in the
header; its body is not excerpted). Per the spec it validates that the
provided buffer counts match the tensor-name-list lengths fixed at
construction, failing with `ArityMismatch` otherwise, and only then
executes the compiled subgraph on the DPU runner, writing the results into
the output buffers. -/
def VaiComputeFunc.call (f : VaiComputeFunc)
    (in_tensors out_tensors : List XBuffer) :
    Except PxError (List XBuffer) :=
  if in_tensors.length ≠ f.in_tensor_names_.length ∨
      out_tensors.length ≠ f.out_tensor_names_.length then
    .error .ArityMismatch
  else
    .ok (f.dpu_run in_tensors)

/-- A concrete ONNX file importer stub used to instantiate the import
theorems on a closed registry: it records the source it was invoked
with in the graph's contents. -/
def onnxStubFile : OpaqueFunc :=
  { run := fun gph s => { name := gph.name, nodes := [s] } }

/-- A concrete ONNX byte-stream importer stub for the second key. -/
def onnxStubBytes : OpaqueFunc :=
  { run := fun gph s => { name := gph.name, nodes := [s, s] } }

/-- A concrete registry holding both ONNX import keys. -/
def onnxReg : OpaqueFuncRegistry :=
  [("pyxir.onnx.from_onnx", onnxStubFile),
   ("pyxir.onnx.from_onnx_bytes", onnxStubBytes)]

/-- A concrete compute function with one input and one output tensor
name, used to instantiate the arity theorem. -/
def vaiEx : VaiComputeFunc :=
  { xg_ := { name := "g", nodes := [] }, target_ := "DPUCADX8G",
    in_tensor_names_ := ["xinput0"], out_tensor_names_ := ["xoutput0"],
    dpu_run := fun bufs => bufs }

/-- A concrete one-entry Manager state: runtime name `cpu` with impl 7
installed, used to instantiate the dispatch theorems. -/
def mgrEx : Manager :=
  { map := [("cpu", { fid := 0, runtime_ := "cpu", impl_ := some { id := 7 } })],
    next := 1 }

/- ----------------------------------------------------------------- -/
/- Helper lemmas                                                     -/
/- ----------------------------------------------------------------- -/

theorem GetFactory_lookup (m : Manager) (r : String) :
    lookupS ((m.GetFactory r).1).map r = some ((m.GetFactory r).2) := by
  unfold Manager.GetFactory
  cases hx : lookupS m.map r with
  | some f => simp [hx]
  | none => simp [hx]

theorem GetFactory_of_lookup (m : Manager) (r : String)
    (f : RuntimeModuleFactory) (h : lookupS m.map r = some f) :
    m.GetFactory r = (m, f) := by
  unfold Manager.GetFactory
  simp [h]

theorem registerAndSetImpl_lookup (m : Manager) (r : String)
    (i : RuntimeModuleFactoryImpl) :
    lookupS (m.registerAndSetImpl r i).map r =
      some (((m.GetFactory r).2).set_impl i) := by
  unfold Manager.registerAndSetImpl
  simp [lookupS_updateS, GetFactory_lookup]

theorem GetRuntimeModule_dispatch (m : Manager) (r : String)
    (f : RuntimeModuleFactory) (impl : RuntimeModuleFactoryImpl)
    (hf : lookupS m.map r = some f) (hi : f.impl_ = some impl)
    (xg : Nat) (target : String) (ins outs : List String)
    (ro : Option RunOptions) :
    m.GetRuntimeModule xg target ins outs r ro =
      (m, .ok (impl.build
        { xg := xg, target := target, in_tensor_names := ins,
          out_tensor_names := outs, run_options := ro })) := by
  unfold Manager.GetRuntimeModule
  simp [hf, hi]

theorem fromFile_eq_of_get (reg : OpaqueFuncRegistry)
    (file_path : String) (f : OpaqueFunc)
    (h : reg.get "pyxir.onnx.from_onnx" = some f) :
    onnxImportModelFromFile reg file_path =
      (.ok (0, f.run { name := "empty_onnx_model", nodes := [] } file_path),
       [.getCall "pyxir.onnx.from_onnx",
        .invoke "pyxir.onnx.from_onnx" 0
          { name := "empty_onnx_model", nodes := [] } file_path]) := by
  have e : reg.funcExists "pyxir.onnx.from_onnx" = true := by
    unfold OpaqueFuncRegistry.funcExists
    unfold OpaqueFuncRegistry.get at h
    simp [h]
  unfold onnxImportModelFromFile
  simp [e, h]

theorem fromBytes_eq_of_get (reg : OpaqueFuncRegistry)
    (bytes : String) (g : OpaqueFunc)
    (h : reg.get "pyxir.onnx.from_onnx_bytes" = some g) :
    onnxImportModelFromBytes reg bytes =
      (.ok (0, g.run { name := "empty_onnx_model", nodes := [] } bytes),
       [.getCall "pyxir.onnx.from_onnx_bytes",
        .invoke "pyxir.onnx.from_onnx_bytes" 0
          { name := "empty_onnx_model", nodes := [] } bytes]) := by
  have e : reg.funcExists "pyxir.onnx.from_onnx_bytes" = true := by
    unfold OpaqueFuncRegistry.funcExists
    unfold OpaqueFuncRegistry.get at h
    simp [h]
  unfold onnxImportModelFromBytes
  simp [e, h]

/- ----------------------------------------------------------------- -/
/- Claim theorems                                                    -/
/- ----------------------------------------------------------------- -/

/-- C1: for a runtime name with no registered factory, `GetRuntimeModule`
fails with `UnknownRuntime` and leaves the registry map unchanged — the
returned state is exactly the input state, so no map entry is created by
the failed lookup — and no (partially constructed) module is returned. -/
theorem getRuntimeModule_unknown_runtime_clean_failure
    (m : Manager) (xg : Nat) (target : String) (ins outs : List String)
    (r : String) (ro : Option RunOptions) (h : m.rmfExists r = false) :
    m.GetRuntimeModule xg target ins outs r ro =
      (m, .error (.UnknownRuntime r)) := by
  have hl : lookupS m.map r = none := by
    unfold Manager.rmfExists at h
    cases hx : lookupS m.map r <;> simp [hx] at h ⊢
  unfold Manager.GetRuntimeModule
  simp [hl]

/-- C1 witness: on the empty registry, runtime `x` is unregistered and the
call fails cleanly. -/
theorem getRuntimeModule_unknown_runtime_clean_failure_witness :
    (Manager.mk [] 0).rmfExists "x" = false ∧
    (Manager.mk [] 0).GetRuntimeModule 0 "t" ["a"] ["b"] "x" none =
      (Manager.mk [] 0, .error (.UnknownRuntime "x")) :=
  ⟨rfl, getRuntimeModule_unknown_runtime_clean_failure
    (Manager.mk [] 0) 0 "t" ["a"] ["b"] "x" none rfl⟩

/-- C2: installing impl A then impl B for the same runtime name leaves B as
the sole active impl — `get_impl` on the stored factory yields B — and any
subsequent `GetRuntimeModule` for that name dispatches to B only (the
constructed module records B's identity and B supersedes A entirely). -/
theorem set_impl_last_write_wins (m : Manager) (r : String)
    (A B : RuntimeModuleFactoryImpl) (xg : Nat) (target : String)
    (ins outs : List String) (ro : Option RunOptions) :
    ∃ f, lookupS ((m.registerAndSetImpl r A).registerAndSetImpl r B).map r
        = some f ∧
      f.get_impl = some B ∧
      ((m.registerAndSetImpl r A).registerAndSetImpl r B).GetRuntimeModule
          xg target ins outs r ro =
        ((m.registerAndSetImpl r A).registerAndSetImpl r B,
         .ok (B.build
           { xg := xg, target := target, in_tensor_names := ins,
             out_tensor_names := outs, run_options := ro })) := by
  refine ⟨(((m.registerAndSetImpl r A).GetFactory r).2).set_impl B,
    registerAndSetImpl_lookup _ r B, rfl, ?_⟩
  exact GetRuntimeModule_dispatch _ r _ B
    (registerAndSetImpl_lookup _ r B) rfl xg target ins outs ro

/-- C3: `RegisterImpl` (the Manager's get-or-create `GetFactory`) is
idempotent: a second call with the same runtime name returns the same
registry state and the same factory (same identity `fid`) as the first, so
at most one factory ever exists per distinct runtime name. -/
theorem registerImpl_idempotent_identity (m : Manager) (r : String) :
    ((m.RegisterImpl r).1).RegisterImpl r = m.RegisterImpl r := by
  unfold Manager.RegisterImpl
  have h := GetFactory_lookup m r
  rw [GetFactory_of_lookup _ r _ h]

/-- C4: with an impl installed for runtime `r`, `GetRuntimeModule` hands
the impl exactly the tuple (graph, target, input names, output names,
run options) — the constructed module records precisely these — and the
overload that omits `run_options` hands the impl the default absent
options. -/
theorem getRuntimeModule_threads_args (m : Manager) (r : String)
    (f : RuntimeModuleFactory) (impl : RuntimeModuleFactoryImpl)
    (xg : Nat) (target : String) (ins outs : List String)
    (ro : Option RunOptions)
    (hf : lookupS m.map r = some f) (hi : f.get_impl = some impl) :
    (m.GetRuntimeModule xg target ins outs r ro).2 =
      .ok { impl_id := impl.id,
            args := { xg := xg, target := target, in_tensor_names := ins,
                      out_tensor_names := outs, run_options := ro } } ∧
    (m.GetRuntimeModuleNoOpts xg target ins outs r).2 =
      .ok { impl_id := impl.id,
            args := { xg := xg, target := target, in_tensor_names := ins,
                      out_tensor_names := outs, run_options := none } } := by
  refine ⟨?_, ?_⟩
  · rw [GetRuntimeModule_dispatch m r f impl hf hi]
    rfl
  · rw [Manager.GetRuntimeModuleNoOpts,
      GetRuntimeModule_dispatch m r f impl hf hi]
    rfl


/-- C4 witness: on a concrete one-entry registry with impl 7 for `cpu`,
the impl observes exactly the passed tuple, with absent options when
omitted. -/
theorem getRuntimeModule_threads_args_witness :
    lookupS mgrEx.map "cpu" =
      some { fid := 0, runtime_ := "cpu", impl_ := some { id := 7 } } ∧
    (RuntimeModuleFactory.mk 0 "cpu" (some { id := 7 })).get_impl =
      some { id := 7 } ∧
    ((mgrEx.GetRuntimeModule 5 "dpu" ["a"] ["b"] "cpu"
        (some { online_quantization := true })).2 =
      .ok { impl_id := 7,
            args := { xg := 5, target := "dpu", in_tensor_names := ["a"],
                      out_tensor_names := ["b"],
                      run_options := some { online_quantization := true } } } ∧
     (mgrEx.GetRuntimeModuleNoOpts 5 "dpu" ["a"] ["b"] "cpu").2 =
      .ok { impl_id := 7,
            args := { xg := 5, target := "dpu", in_tensor_names := ["a"],
                      out_tensor_names := ["b"], run_options := none } }) :=
  ⟨rfl, rfl,
   getRuntimeModule_threads_args mgrEx "cpu"
     { fid := 0, runtime_ := "cpu", impl_ := some { id := 7 } } { id := 7 }
     5 "dpu" ["a"] ["b"] (some { online_quantization := true }) rfl rfl⟩

/-- C5: `set_compute_impl` registers the compute impl under exactly the
factory's own runtime name in a single call — the compute-func registry
slot for that name ends up holding it — and returns the same factory. -/
theorem set_compute_impl_registers_same_name (f : RuntimeModuleFactory)
    (cf : CFRegistry) (c : ComputeFuncFactoryImpl) :
    (f.set_compute_impl cf c).1 = f ∧
    ∃ slot, lookupS (f.set_compute_impl cf c).2.map f.runtime_ = some slot ∧
      slot.impl_ = some c := by
  refine ⟨rfl, ?_⟩
  unfold RuntimeModuleFactory.set_compute_impl CFRegistry.registerAndSetImpl
  cases hx : lookupS cf.map f.runtime_ with
  | some s =>
    exact ⟨{ s with impl_ := some c }, by simp [hx, lookupS_updateS], rfl⟩
  | none =>
    exact ⟨{ runtime_ := f.runtime_, impl_ := some c },
      by simp [hx, lookupS_updateS], rfl⟩

/-- C6: with the required opaque-function key unregistered, each ONNX
entry point fails with its descriptive "not registered" error right after
the `Exists` check: the event trace is empty, so `Get` is never called and
no callable is invoked. -/
theorem onnx_import_unregistered_fails_cleanly (reg : OpaqueFuncRegistry)
    (file_path bytes : String)
    (h1 : reg.funcExists "pyxir.onnx.from_onnx" = false)
    (h2 : reg.funcExists "pyxir.onnx.from_onnx_bytes" = false) :
    onnxImportModelFromFile reg file_path =
      (.error ("Cannot import ONNX model from file because" ++
               " `pyxir.onnx.from_onnx` opaque function is" ++
               " not registered"), []) ∧
    onnxImportModelFromBytes reg bytes =
      (.error ("Cannot import ONNX model from file because" ++
               " `pyxir.onnx.from_onnx_bytes` opaque function is" ++
               " not registered"), []) := by
  constructor
  · unfold onnxImportModelFromFile
    simp [h1]
  · unfold onnxImportModelFromBytes
    simp [h2]

/-- C6 witness: on the empty registry neither key exists and both entry
points fail with their messages and an empty trace. -/
theorem onnx_import_unregistered_fails_cleanly_witness :
    OpaqueFuncRegistry.funcExists [] "pyxir.onnx.from_onnx" = false ∧
    OpaqueFuncRegistry.funcExists [] "pyxir.onnx.from_onnx_bytes" = false ∧
    (onnxImportModelFromFile [] "model.onnx" =
      (.error ("Cannot import ONNX model from file because" ++
               " `pyxir.onnx.from_onnx` opaque function is" ++
               " not registered"), []) ∧
     onnxImportModelFromBytes [] "RAWBYTES" =
      (.error ("Cannot import ONNX model from file because" ++
               " `pyxir.onnx.from_onnx_bytes` opaque function is" ++
               " not registered"), [])) :=
  ⟨rfl, rfl,
   onnx_import_unregistered_fails_cleanly [] "model.onnx" "RAWBYTES" rfl rfl⟩

/-- C7: with the required key registered, each ONNX import entry point
invokes the registered callable exactly once (the trace holds a single
invoke event) with the argument pair of graph handle and source — the file
path for the file overload, the full stream bytes for the byte overload —
and returns the very graph handle it passed. -/
theorem onnx_import_invokes_once (reg : OpaqueFuncRegistry)
    (file_path bytes : String) (f g : OpaqueFunc)
    (h1 : reg.get "pyxir.onnx.from_onnx" = some f)
    (h2 : reg.get "pyxir.onnx.from_onnx_bytes" = some g) :
    onnxImportModelFromFile reg file_path =
      (.ok (0, f.run { name := "empty_onnx_model", nodes := [] } file_path),
       [.getCall "pyxir.onnx.from_onnx",
        .invoke "pyxir.onnx.from_onnx" 0
          { name := "empty_onnx_model", nodes := [] } file_path]) ∧
    onnxImportModelFromBytes reg bytes =
      (.ok (0, g.run { name := "empty_onnx_model", nodes := [] } bytes),
       [.getCall "pyxir.onnx.from_onnx_bytes",
        .invoke "pyxir.onnx.from_onnx_bytes" 0
          { name := "empty_onnx_model", nodes := [] } bytes]) :=
  ⟨fromFile_eq_of_get reg file_path f h1,
   fromBytes_eq_of_get reg bytes g h2⟩

/-- C7 witness: on a concrete registry with recording stubs under both
keys, each entry point invokes its stub once with the handle and source
and returns that handle. -/
theorem onnx_import_invokes_once_witness :
    onnxReg.get "pyxir.onnx.from_onnx" = some onnxStubFile ∧
    onnxReg.get "pyxir.onnx.from_onnx_bytes" = some onnxStubBytes ∧
    (onnxImportModelFromFile onnxReg "m.onnx" =
      (.ok (0, onnxStubFile.run
        { name := "empty_onnx_model", nodes := [] } "m.onnx"),
       [.getCall "pyxir.onnx.from_onnx",
        .invoke "pyxir.onnx.from_onnx" 0
          { name := "empty_onnx_model", nodes := [] } "m.onnx"]) ∧
     onnxImportModelFromBytes onnxReg "BB" =
      (.ok (0, onnxStubBytes.run
        { name := "empty_onnx_model", nodes := [] } "BB"),
       [.getCall "pyxir.onnx.from_onnx_bytes",
        .invoke "pyxir.onnx.from_onnx_bytes" 0
          { name := "empty_onnx_model", nodes := [] } "BB"])) :=
  ⟨rfl, rfl,
   onnx_import_invokes_once onnxReg "m.onnx" "BB" onnxStubFile onnxStubBytes
     rfl rfl⟩

/-- C8: a compute function constructed with tensor-name lists I and O,
invoked with an input buffer list whose length differs from I's or an
output buffer list whose length differs from O's, fails with
`ArityMismatch` and does not execute the subgraph. -/
theorem vai_call_arity_mismatch (f : VaiComputeFunc)
    (ins outs : List XBuffer)
    (h : ins.length ≠ f.in_tensor_names_.length ∨
         outs.length ≠ f.out_tensor_names_.length) :
    f.call ins outs = .error .ArityMismatch := by
  unfold VaiComputeFunc.call
  rw [if_pos h]

/-- C8 witness: a compute function with one input and one output name,
invoked with zero input buffers, fails with `ArityMismatch`. -/
theorem vai_call_arity_mismatch_witness :
    (([] : List XBuffer).length ≠ vaiEx.in_tensor_names_.length ∨
     ([XBuffer.mk []] : List XBuffer).length ≠
       vaiEx.out_tensor_names_.length) ∧
    vaiEx.call [] [XBuffer.mk []] = .error .ArityMismatch :=
  ⟨Or.inl (by decide),
   vai_call_arity_mismatch vaiEx [] [XBuffer.mk []] (Or.inl (by decide))⟩

/-- C9: `is_op_supported` returns true exactly on the four operation types
Input, Output, DPUV1 and TupleGetItem, for every object: the supported
set is the fixed in-class initializer, which no operation mutates. -/
theorem is_op_supported_iff_four (f : VaiComputeFunc) (t : String) :
    f.is_op_supported t = true ↔
      (t = "Input" ∨ t = "Output" ∨ t = "DPUV1" ∨ t = "TupleGetItem") := by
  unfold VaiComputeFunc.is_op_supported VaiComputeFunc.supported_ops_
  simp [List.contains_eq_any_beq]

/-- C10: on success each ONNX import entry point constructs a fresh graph
whose name at the moment of invocation is `empty_onnx_model`, and the
handle it returns is the very handle it passed to the opaque function,
whose in-place population is reflected in the returned contents. -/
theorem onnx_import_fresh_graph_same_handle (reg : OpaqueFuncRegistry)
    (file_path bytes : String) (f g : OpaqueFunc)
    (h1 : reg.get "pyxir.onnx.from_onnx" = some f)
    (h2 : reg.get "pyxir.onnx.from_onnx_bytes" = some g) :
    (∃ h0 xg0,
      onnxImportModelFromFile reg file_path =
        (.ok (h0, f.run xg0 file_path),
         [.getCall "pyxir.onnx.from_onnx",
          .invoke "pyxir.onnx.from_onnx" h0 xg0 file_path]) ∧
      xg0.name = "empty_onnx_model") ∧
    (∃ h0 xg0,
      onnxImportModelFromBytes reg bytes =
        (.ok (h0, g.run xg0 bytes),
         [.getCall "pyxir.onnx.from_onnx_bytes",
          .invoke "pyxir.onnx.from_onnx_bytes" h0 xg0 bytes]) ∧
      xg0.name = "empty_onnx_model") :=
  ⟨⟨0, { name := "empty_onnx_model", nodes := [] },
    fromFile_eq_of_get reg file_path f h1, rfl⟩,
   ⟨0, { name := "empty_onnx_model", nodes := [] },
    fromBytes_eq_of_get reg bytes g h2, rfl⟩⟩

/-- C10 witness: instantiation on the concrete registry with both keys
registered. -/
theorem onnx_import_fresh_graph_same_handle_witness :
    onnxReg.get "pyxir.onnx.from_onnx" = some onnxStubFile ∧
    onnxReg.get "pyxir.onnx.from_onnx_bytes" = some onnxStubBytes ∧
    ((∃ h0 xg0,
      onnxImportModelFromFile onnxReg "p.onnx" =
        (.ok (h0, onnxStubFile.run xg0 "p.onnx"),
         [.getCall "pyxir.onnx.from_onnx",
          .invoke "pyxir.onnx.from_onnx" h0 xg0 "p.onnx"]) ∧
      xg0.name = "empty_onnx_model") ∧
    (∃ h0 xg0,
      onnxImportModelFromBytes onnxReg "CC" =
        (.ok (h0, onnxStubBytes.run xg0 "CC"),
         [.getCall "pyxir.onnx.from_onnx_bytes",
          .invoke "pyxir.onnx.from_onnx_bytes" h0 xg0 "CC"]) ∧
      xg0.name = "empty_onnx_model")) :=
  ⟨rfl, rfl,
   onnx_import_fresh_graph_same_handle onnxReg "p.onnx" "CC"
     onnxStubFile onnxStubBytes rfl rfl⟩

end Pyxir
